import Mathlib

/-!
Shallow embedding of the GoViet hybrid travel-assistant pipeline
(`hybrid_chat.py`, `app.py`).  External services (OpenAI embeddings and chat
completions, the Pinecone index, the Neo4j driver) are modelled as oracle
functions returning `Except`; a raised exception is the `Except.error` case.
Mutable module state (the embedding cache, call counts, console error logs)
is threaded explicitly through an `EmbedState` record.  Machine floats that
the code merely passes through (embedding coordinates, match scores) are
modelled as rationals.
-/

namespace GoViet

/-- Python `str.lower` on a character, for the ASCII range the code relies on
(theme names and keywords are ASCII). -/
def lowerChar (c : Char) : Char :=
  if 65 ≤ c.toNat ∧ c.toNat ≤ 90 then Char.ofNat (c.toNat + 32) else c

/-- Python `s.lower()`. -/
def pyLower (s : String) : String := ⟨s.data.map lowerChar⟩

/-- Python substring membership `kw in s`. -/
def pyIn (kw s : String) : Bool := decide (kw.data <:+: s.data)

/-- Python slicing `s[:n]` (by code points). -/
def pyTake (s : String) (n : Nat) : String := ⟨s.data.take n⟩

/-- Python `s.startswith(pre)`. -/
def pyStartsWith (s pre : String) : Bool := decide (pre.data <+: s.data)

/-- Python `str(tags)` for a list of plain tag words (no quotes or escapes in
the tags themselves): `["a", "b"]` renders as `['a', 'b']`. -/
def pyStrList (ts : List String) : String :=
  "[" ++ String.intercalate ", " (ts.map (fun t => "\x27" ++ t ++ "\x27")) ++ "]"

/-- One graph fact assembled by `fetch_graph_context` (hybrid_chat.py:127-136). -/
structure Fact where
  source : String
  rel : String
  target_id : String
  target_name : String
  target_type : String
  target_desc : String
  target_tags : List String
  labels : List String
deriving DecidableEq

/-- The fixed theme-keyword table of `filter_by_theme` (hybrid_chat.py:160-165);
`theme_keywords.get(theme, [])` as a total function. -/
def theme_keywords (t : String) : List String :=
  if t = "romantic" then ["romantic", "couple", "sunset", "beach", "spa", "dinner", "cruise"]
  else if t = "adventure" then ["hiking", "trekking", "mountain", "adventure", "rafting", "cycling"]
  else if t = "cultural" then ["temple", "museum", "historical", "culture", "heritage", "traditional"]
  else if t = "family" then ["family", "kids", "zoo", "park", "entertainment"]
  else []

/-- The per-fact keyword test of `filter_by_theme` (hybrid_chat.py:172-179):
`any(kw in str(tags).lower() or kw in desc or kw in name for kw in keywords)`. -/
def factMatches (keywords : List String) (fact : Fact) : Bool :=
  keywords.any (fun kw =>
    pyIn kw (pyLower (pyStrList fact.target_tags)) ||
    pyIn kw (pyLower fact.target_desc) ||
    pyIn kw (pyLower fact.target_name))

/-- `filter_by_theme` (hybrid_chat.py:158-181). -/
def filter_by_theme (facts : List Fact) (theme : String) : List Fact :=
  let keywords := theme_keywords (pyLower theme)
  if keywords = [] then facts
  else
    let filtered := facts.filter (factMatches keywords)
    if filtered = [] then facts.take 10 else filtered

/-- Embedding vectors: coordinates passed through opaquely, modelled as ℚ. -/
abbrev Vec := List ℚ

/-- The process-wide mutable state touched by `embed_text`: the
`EMBEDDING_CACHE` dict (as an association list keyed by the text fingerprint),
a counter of external embedding requests issued, and the console error log. -/
structure EmbedState where
  cache : List (String × Vec)
  calls : Nat
  log : List String
deriving DecidableEq

/-- `embed_text` (hybrid_chat.py:73-88).  `hash` is the deterministic
fingerprint `hashlib.md5(text.encode()).hexdigest()`; `svc` the external
embeddings endpoint; `dim` is `config.PINECONE_VECTOR_DIM`. -/
def embed_text (hash : String → String) (svc : String → Except String Vec) (dim : Nat)
    (text : String) (st : EmbedState) : Vec × EmbedState :=
  let cache_key := hash text
  match st.cache.lookup cache_key with
  | some v => (v, st)
  | none =>
    match svc text with
    | Except.ok embedding =>
        (embedding,
         { st with cache := (cache_key, embedding) :: st.cache, calls := st.calls + 1 })
    | Except.error e =>
        (List.replicate dim 0,
         { st with calls := st.calls + 1,
                   log := st.log ++ ["Error generating embedding: " ++ e] })

/-- Pinecone match metadata fields read by the prompt assembler. -/
structure Metadata where
  name : Option String
  type : Option String
  city : Option String
  tags : Option (List String)
deriving DecidableEq

/-- One Pinecone vector match. -/
structure VectorMatch where
  id : String
  score : ℚ
  metadata : Metadata
deriving DecidableEq

/-- `TOP_K` (hybrid_chat.py:18). -/
def TOP_K : Nat := 5

/-- Scores are non-increasing along the list. -/
def scoresNonInc : List VectorMatch → Bool
  | [] => true
  | [_] => true
  | a :: b :: t => (decide (b.score ≤ a.score)) && scoresNonInc (b :: t)

/-- `pinecone_query` (hybrid_chat.py:90-104); `idx` is the external
`index.query` call (vector and `top_k` request fields; metadata included and
raw values excluded are fixed request flags carried by the oracle). -/
def pinecone_query (hash : String → String) (esvc : String → Except String Vec) (dim : Nat)
    (idx : Vec → Nat → Except String (List VectorMatch))
    (query_text : String) (top_k : Nat) (st : EmbedState) : List VectorMatch × EmbedState :=
  let r := embed_text hash esvc dim query_text st
  match idx r.1 top_k with
  | Except.ok ms => (ms, r.2)
  | Except.error _ => ([], r.2)

/-- One record returned by the per-entity Neo4j query `q1`
(hybrid_chat.py:117-123): relationship type, target labels, id, name, type,
description and tags; `description` and `tags` may be null. -/
structure GraphRec where
  rel : String
  labels : List String
  id : String
  name : String
  type : String
  description : Option String
  tags : Option (List String)
deriving DecidableEq

/-- One city-to-city connection returned by the Neo4j query `q2`
(hybrid_chat.py:143-148). -/
structure CityConnection where
  from_city : String
  to_city : String
  to_city_name : String
deriving DecidableEq

/-- The value of `fetch_graph_context`, instrumented with the number of
connectivity (`q2`) queries issued and the console error log. -/
structure GraphResult where
  facts : List Fact
  city_connections : List CityConnection
  connectivity_queries : Nat
  log : List String
deriving DecidableEq

/-- Fact construction from one record (hybrid_chat.py:127-136):
`(r["description"] or "")[:400]` and `r.get("tags", [])`. -/
def mkFact (nid : String) (r : GraphRec) : Fact :=
  { source := nid, rel := r.rel, target_id := r.id, target_name := r.name,
    target_type := r.type, target_desc := pyTake (r.description.getD "") 400,
    target_tags := r.tags.getD [], labels := r.labels }

/-- The per-id loop of `fetch_graph_context` (hybrid_chat.py:115-138):
facts accumulated in input order, with each per-id failure caught and logged. -/
def collectFacts (q1 : String → Except String (List GraphRec))
    (node_ids : List String) : List Fact × List String :=
  node_ids.foldl
    (fun acc nid =>
      match q1 nid with
      | Except.ok recs => (acc.1 ++ recs.map (mkFact nid), acc.2)
      | Except.error e =>
          (acc.1, acc.2 ++ ["Error fetching graph context for " ++ nid ++ ": " ++ e]))
    ([], [])

/-- `city_ids = [f["source"] for f in facts if "City" in f.get("labels", [])]`
(hybrid_chat.py:141). -/
def cityIdsOf (facts : List Fact) : List String :=
  (facts.filter (fun f => decide ("City" ∈ f.labels))).map (fun f => f.source)

/-- The facts contributed by the node ids whose per-id query succeeds, in
input order: closed form of the accumulating loop `collectFacts`. -/
def succeedingFacts (q1 : String → Except String (List GraphRec))
    (node_ids : List String) : List Fact :=
  node_ids.flatMap (fun nid =>
    match q1 nid with
    | Except.ok recs => recs.map (mkFact nid)
    | Except.error _ => [])

/-- The error-log lines produced by the per-id loop, in input order. -/
def perIdFailLog (q1 : String → Except String (List GraphRec))
    (node_ids : List String) : List String :=
  node_ids.flatMap (fun nid =>
    match q1 nid with
    | Except.ok _ => []
    | Except.error e => ["Error fetching graph context for " ++ nid ++ ": " ++ e])

/-- `fetch_graph_context` (hybrid_chat.py:106-156).  `q1` is the per-entity
neighbour query (LIMIT 10 lives in its Cypher text); `q2` the city-connectivity
query (LIMIT 5 in its Cypher text); each session.run that raises is the
`Except.error` case. -/
def fetch_graph_context (q1 : String → Except String (List GraphRec))
    (q2 : List String → Except String (List CityConnection))
    (node_ids : List String) : GraphResult :=
  let c := collectFacts q1 node_ids
  let city_ids := cityIdsOf c.1
  if city_ids = [] then
    { facts := c.1, city_connections := [], connectivity_queries := 0, log := c.2 }
  else
    match q2 city_ids with
    | Except.ok cs =>
        { facts := c.1, city_connections := cs, connectivity_queries := 1, log := c.2 }
    | Except.error e =>
        { facts := c.1, city_connections := [], connectivity_queries := 1,
          log := c.2 ++ ["Error fetching city connections: " ++ e] }

/-- The fixed system message of `build_prompt` (hybrid_chat.py:204-219). -/
def systemPrompt : String :=
  "You are an expert Vietnam travel assistant specializing in creating personalized itineraries.\n\nYour approach:\n1. ANALYZE the user\x27s preferences (duration, theme, interests)\n2. IDENTIFY the most relevant cities and attractions from the provided context\n3. STRUCTURE a day-by-day itinerary with logical flow\n4. INCLUDE specific node IDs as references (e.g., [attraction_123])\n5. PROVIDE practical tips (travel time, best times to visit)\n\nFormat your response as:\n- Brief introduction matching the theme\n- Day-by-day breakdown with morning/afternoon/evening activities\n- Accommodation suggestions\n- Practical travel tips\n\nBe concise but detailed. Cite node IDs for credibility."

/-- Theme extraction from the query (hybrid_chat.py:222-230): first of the
four theme names found as a substring of the lower-cased query, else "". -/
def extract_theme (user_query : String) : String :=
  if pyIn "romantic" (pyLower user_query) then "romantic"
  else if pyIn "adventure" (pyLower user_query) then "adventure"
  else if pyIn "cultural" (pyLower user_query) then "cultural"
  else if pyIn "family" (pyLower user_query) then "family"
  else ""

/-- One chat message. -/
structure PromptMessage where
  role : String
  content : String
deriving DecidableEq

/-- One semantic-match snippet (hybrid_chat.py:239-247).  `fmtScore` models
the Python float formatting `f"{score:.3f}"`, a runtime rendering detail the
line counts never depend on. -/
def renderMatch (fmtScore : ℚ → String) (m : VectorMatch) : String :=
  let meta := m.metadata
  let base := "- [" ++ m.id ++ "] " ++ meta.name.getD "N/A" ++ " (" ++ meta.type.getD "N/A"
      ++ ") in " ++ meta.city.getD "N/A" ++ " - Score: " ++ fmtScore m.score
  match meta.tags with
  | some (t :: ts) => base ++ " | Tags: " ++ String.intercalate ", " ((t :: ts).take 3)
  | _ => base

/-- `vec_context`: one rendered line per match of `pinecone_matches[:8]`
(hybrid_chat.py:237-247). -/
def vec_context (fmtScore : ℚ → String) (pinecone_matches : List VectorMatch) : List String :=
  (pinecone_matches.take 8).map (renderMatch fmtScore)

/-- One knowledge-graph relationship line (hybrid_chat.py:252-258). -/
def renderFact (f : Fact) : String :=
  let base := "- [" ++ f.source ++ "] --" ++ f.rel ++ "--> [" ++ f.target_id ++ "] "
      ++ f.target_name ++ " (" ++ f.target_type ++ "): " ++ pyTake f.target_desc 200
  if f.target_tags.isEmpty then base
  else base ++ " | Tags: " ++ String.intercalate ", " (f.target_tags.take 3)

/-- `graph_context`: one line per fact of `graph_facts[:20]`
(hybrid_chat.py:250-258). -/
def graph_context (graph_facts : List Fact) : List String :=
  (graph_facts.take 20).map renderFact

/-- `city_context` (hybrid_chat.py:261-266). -/
def city_context (city_connections : List CityConnection) : String :=
  if city_connections.isEmpty then ""
  else "\n\nCity Connections (for multi-day planning):\n" ++
    String.intercalate "\n"
      (city_connections.map (fun c => "- " ++ c.from_city ++ " → " ++ c.to_city_name))

/-- `build_prompt` (hybrid_chat.py:199-281). -/
def build_prompt (fmtScore : ℚ → String) (user_query : String)
    (pinecone_matches : List VectorMatch) (graph_facts0 : List Fact)
    (city_connections : List CityConnection) : List PromptMessage :=
  let theme := extract_theme user_query
  let graph_facts :=
    if theme ≠ "" ∧ graph_facts0 ≠ [] then filter_by_theme graph_facts0 theme else graph_facts0
  [⟨"system", systemPrompt⟩,
   ⟨"user",
     "User Query: " ++ user_query ++ "\n\n" ++
     "=== TOP SEMANTIC MATCHES (from vector search) ===\n" ++
     String.intercalate "\n" ((vec_context fmtScore pinecone_matches).take 10) ++ "\n\n" ++
     "=== KNOWLEDGE GRAPH RELATIONSHIPS ===\n" ++
     String.intercalate "\n" ((graph_context graph_facts).take 20) ++
     city_context city_connections ++ "\n\n" ++
     "Based on the above context, create a detailed response. " ++
     "Use node IDs in [brackets] when referencing specific places."⟩]

/-- `call_chat` (hybrid_chat.py:283-294); `chat_svc` is the external
chat-completions call (model, max_tokens=800, temperature=0.3 are fixed
request fields carried by the oracle). -/
def call_chat (chat_svc : List PromptMessage → Except String String)
    (prompt_messages : List PromptMessage) : String :=
  match chat_svc prompt_messages with
  | Except.ok content => content
  | Except.error e => "Error calling OpenAI: " ++ e

/-- The end-to-end pipeline as run per query by the web endpoint
(app.py:19-23) and by the interactive loop (hybrid_chat.py:322-332):
vector retrieval, id extraction, graph expansion, prompt assembly,
completion.  Returns the answer string and the updated embedding state. -/
def ask_pipeline (hash : String → String) (esvc : String → Except String Vec) (dim : Nat)
    (idx : Vec → Nat → Except String (List VectorMatch))
    (q1 : String → Except String (List GraphRec))
    (q2 : List String → Except String (List CityConnection))
    (chat_svc : List PromptMessage → Except String String)
    (fmtScore : ℚ → String) (query : String) (st : EmbedState) : String × EmbedState :=
  let pr := pinecone_query hash esvc dim idx query TOP_K st
  let match_ids := pr.1.map (fun m => m.id)
  let gr := fetch_graph_context q1 q2 match_ids
  let prompt := build_prompt fmtScore query pr.1 gr.facts gr.city_connections
  (call_chat chat_svc prompt, pr.2)

/-! Concrete fixtures used by witnesses and counterexamples. -/

/-- A minimal fact whose fields match no theme keyword. -/
def plainFact (n : String) : Fact :=
  { source := "s", rel := "r", target_id := "t", target_name := n,
    target_type := "ty", target_desc := "", target_tags := [], labels := [] }

/-- Eleven facts, none matching any theme keyword. -/
def elevenFacts : List Fact :=
  (["a", "b", "c", "d", "e", "f", "g", "h", "i", "j", "k"]).map plainFact

/-- A fact whose description mentions romance. -/
def romFact : Fact := { plainFact "m" with target_desc := "Romantic getaway" }

/-- A fact whose only keyword evidence is the substring "spa" inside the tag
word "Spacious", visible only through the str() rendering of the tag list. -/
def spaciousFact : Fact := { plainFact "room" with target_tags := ["Spacious"] }

/-- The identity fingerprint (stands in for a concrete md5). -/
def idHash : String → String := fun s => s

/-- An embeddings endpoint that always fails. -/
def failSvc : String → Except String Vec := fun _ => Except.error "boom"

/-- An embeddings endpoint that always succeeds with a fixed vector. -/
def okSvc : String → Except String Vec := fun _ => Except.ok [1, 2]

/-- The initial process state: empty cache, no calls, no log. -/
def emptyState : EmbedState := { cache := [], calls := 0, log := [] }

/-- A vector match with the given id and score and empty metadata. -/
def plainMatch (i : String) (sc : ℚ) : VectorMatch :=
  { id := i, score := sc, metadata := { name := none, type := none, city := none, tags := none } }

/-- Twelve vector matches. -/
def twelveMatches : List VectorMatch :=
  (["1", "2", "3", "4", "5", "6", "7", "8", "9", "10", "11", "12"]).map
    (fun i => plainMatch i 0)

/-- An index oracle returning the first `k` of two fixed sorted matches. -/
def sortedIdx : Vec → Nat → Except String (List VectorMatch) :=
  fun _ k => Except.ok ([plainMatch "a" 3, plainMatch "b" 2].take k)

/-- A per-id oracle succeeding on "a" and failing elsewhere. -/
def wq1 : String → Except String (List GraphRec) :=
  fun nid =>
    if nid = "a" then
      Except.ok [{ rel := "HAS", labels := ["Attraction"], id := "x", name := "X",
                   type := "attraction", description := some "d", tags := some ["t"] }]
    else Except.error "down"

/-- A connectivity oracle that always fails. -/
def wq2 : List String → Except String (List CityConnection) :=
  fun _ => Except.error "down2"

/-- A per-id oracle whose single record targets a City-labelled node. -/
def wq1c : String → Except String (List GraphRec) :=
  fun nid =>
    if nid = "a" then
      Except.ok [{ rel := "Connected_To", labels := ["Entity", "City"], id := "c", name := "Hanoi",
                   type := "city", description := some "d", tags := none }]
    else Except.error "down"

/-- A connectivity oracle returning one fixed connection. -/
def wq2c : List String → Except String (List CityConnection) :=
  fun _ => Except.ok [{ from_city := "a", to_city := "c2", to_city_name := "Hue" }]

/-- A chat-completion oracle that always raises. -/
def failChat : List PromptMessage → Except String String :=
  fun _ => Except.error "boom"

/-!  Theorems.  -/

/-- Helper: `facts.take 10` of a non-empty list is non-empty. -/
theorem take_ten_ne_nil (l : List Fact) (h : l ≠ []) : l.take 10 ≠ [] := by
  cases l with
  | nil => exact absurd rfl h
  | cons a t => simp

/-- C1 counterexample: for the unmapped theme "scenic" and an 11-fact list in
which no fact matches any keyword of the theme, the claim predicts the first
10 facts, but `filter_by_theme` returns all eleven facts unchanged. -/
theorem filter_unmapped_not_first_ten :
    elevenFacts ≠ [] ∧
    (∀ f ∈ elevenFacts, factMatches (theme_keywords (pyLower "scenic")) f = false) ∧
    filter_by_theme elevenFacts "scenic" ≠ elevenFacts.take 10 := by decide

/-- C1 (amended): for every non-empty facts list and every theme,
`filter_by_theme` returns a non-empty sequence; when the theme maps to no
keywords it returns the facts unchanged, and when it maps to keywords it
returns the matching facts if any fact matches, else the first 10 facts. -/
theorem filter_by_theme_nonempty (facts : List Fact) (theme : String) (hne : facts ≠ []) :
    filter_by_theme facts theme ≠ [] ∧
    (theme_keywords (pyLower theme) = [] → filter_by_theme facts theme = facts) ∧
    (theme_keywords (pyLower theme) ≠ [] →
      (facts.filter (factMatches (theme_keywords (pyLower theme))) ≠ [] →
        filter_by_theme facts theme
          = facts.filter (factMatches (theme_keywords (pyLower theme)))) ∧
      (facts.filter (factMatches (theme_keywords (pyLower theme))) = [] →
        filter_by_theme facts theme = facts.take 10)) := by
  by_cases hk : theme_keywords (pyLower theme) = []
  · simp [filter_by_theme, hk, hne]
  · by_cases hf : facts.filter (factMatches (theme_keywords (pyLower theme))) = []
    · have h10 := take_ten_ne_nil facts hne
      simp [filter_by_theme, hk, hf, h10]
    · simp [filter_by_theme, hk, hf]

/-- C1 witness: a concrete non-empty input on which the amended claim yields a
non-empty result. -/
theorem filter_by_theme_nonempty_witness :
    ([plainFact "x"] : List Fact) ≠ [] ∧ filter_by_theme [plainFact "x"] "romantic" ≠ [] :=
  ⟨by decide, (filter_by_theme_nonempty [plainFact "x"] "romantic" (by decide)).1⟩

/-- C6 counterexample: the theme value "ROMANTIC" is not in the enumeration
{romantic, adventure, cultural, family}, yet `filter_by_theme` lower-cases the
theme before the table lookup, so it filters rather than acting as the
identity. -/
theorem filter_uppercase_theme_not_identity :
    ("ROMANTIC" ∉ (["romantic", "adventure", "cultural", "family"] : List String)) ∧
    filter_by_theme [romFact, plainFact "n"] "ROMANTIC" ≠ [romFact, plainFact "n"] := by
  decide

/-- C6 (amended): for every theme whose lower-casing is not in the fixed
enumeration, `filter_by_theme` is the identity. -/
theorem filter_unmapped_theme_identity (facts : List Fact) (theme : String)
    (h : pyLower theme ∉ (["romantic", "adventure", "cultural", "family"] : List String)) :
    filter_by_theme facts theme = facts := by
  have h1 : pyLower theme ≠ "romantic" := fun hh => h (by rw [hh]; decide)
  have h2 : pyLower theme ≠ "adventure" := fun hh => h (by rw [hh]; decide)
  have h3 : pyLower theme ≠ "cultural" := fun hh => h (by rw [hh]; decide)
  have h4 : pyLower theme ≠ "family" := fun hh => h (by rw [hh]; decide)
  have hk : theme_keywords (pyLower theme) = [] := by
    simp [theme_keywords, h1, h2, h3, h4]
  simp [filter_by_theme, hk]

/-- C6 witness: the theme "scenic" lower-cases outside the enumeration, and
filtering with it leaves a concrete facts list unchanged. -/
theorem filter_unmapped_theme_identity_witness :
    filter_by_theme elevenFacts "scenic" = elevenFacts :=
  filter_unmapped_theme_identity elevenFacts "scenic" (by decide)

/-- C10: for a theme that maps to keywords, as long as at least one fact
matches (so the first-10 fallback is not taken), a fact is kept by
`filter_by_theme` iff some theme keyword occurs as a substring of the
lower-cased str() rendering of its whole tag list, of its lower-cased
description, or of its lower-cased name. -/
theorem filter_keeps_iff_keyword_substring (facts : List Fact) (theme : String) (f : Fact)
    (hkw : theme_keywords (pyLower theme) ≠ [])
    (hex : ∃ g ∈ facts, factMatches (theme_keywords (pyLower theme)) g = true) :
    f ∈ filter_by_theme facts theme ↔
      f ∈ facts ∧ ∃ kw ∈ theme_keywords (pyLower theme),
        (kw.data <:+: (pyLower (pyStrList f.target_tags)).data ∨
         kw.data <:+: (pyLower f.target_desc).data ∨
         kw.data <:+: (pyLower f.target_name).data) := by
  have hf : facts.filter (factMatches (theme_keywords (pyLower theme))) ≠ [] := by
    obtain ⟨g, hg, hm⟩ := hex
    exact List.ne_nil_of_mem (List.mem_filter.mpr ⟨hg, hm⟩)
  simp only [filter_by_theme, if_neg hkw, if_neg hf]
  rw [List.mem_filter]
  simp [factMatches, List.any_eq_true, pyIn, or_assoc]

/-- C10 witness: under the romantic theme, a fact whose only evidence is the
keyword "spa" occurring inside the longer tag word "Spacious" is kept. -/
theorem filter_keeps_spacious_tag_witness :
    spaciousFact ∈ filter_by_theme [spaciousFact] "romantic" :=
  (filter_keeps_iff_keyword_substring [spaciousFact] "romantic" spaciousFact
      (by decide) (by decide)).mpr
    ⟨by decide, "spa", by decide, Or.inl (by decide)⟩

/-- C3 counterexample: for a text whose external embedding call fails, the
first call does not cache, so the second call issues another external request
(the request counter goes from 1 to 2), refuting the claim that the second
call makes no external request for every text. -/
theorem embed_failed_text_second_call_external :
    (embed_text idHash failSvc 3 "t" emptyState).2.calls = 1 ∧
    (embed_text idHash failSvc 3 "t" (embed_text idHash failSvc 3 "t" emptyState).2).2.calls
      = 2 := by decide

/-- C3 (amended): for every text whose fingerprint is already cached or whose
external embedding call succeeds, calling `embed_text` twice returns identical
vectors, and the second call makes no external request and leaves the state
unchanged: the first call stored the vector under the deterministic
fingerprint and the second call returns the cached vector. -/
theorem embed_text_memoized (hash : String → String) (svc : String → Except String Vec)
    (dim : Nat) (text : String) (st : EmbedState)
    (h : (∃ v, st.cache.lookup (hash text) = some v) ∨ ∃ v, svc text = Except.ok v) :
    (embed_text hash svc dim text (embed_text hash svc dim text st).2).1
      = (embed_text hash svc dim text st).1 ∧
    (embed_text hash svc dim text (embed_text hash svc dim text st).2).2.calls
      = (embed_text hash svc dim text st).2.calls ∧
    (embed_text hash svc dim text (embed_text hash svc dim text st).2).2
      = (embed_text hash svc dim text st).2 := by
  cases hl : st.cache.lookup (hash text) with
  | some v => simp [embed_text, hl]
  | none =>
    cases hs : svc text with
    | ok w => simp [embed_text, hl, hs, List.lookup]
    | error e =>
      exfalso
      rcases h with ⟨v, hv⟩ | ⟨v, hv⟩
      · rw [hl] at hv; exact Option.noConfusion hv
      · rw [hs] at hv; exact Except.noConfusion hv

/-- C3 witness: a concrete succeeding service, on which the second call
returns the same vector without touching the call counter. -/
theorem embed_text_memoized_witness :
    (embed_text idHash okSvc 2 "hello" (embed_text idHash okSvc 2 "hello" emptyState).2).1
      = (embed_text idHash okSvc 2 "hello" emptyState).1 ∧
    (embed_text idHash okSvc 2 "hello" (embed_text idHash okSvc 2 "hello" emptyState).2).2.calls
      = (embed_text idHash okSvc 2 "hello" emptyState).2.calls ∧
    (embed_text idHash okSvc 2 "hello" (embed_text idHash okSvc 2 "hello" emptyState).2).2
      = (embed_text idHash okSvc 2 "hello" emptyState).2 :=
  embed_text_memoized idHash okSvc 2 "hello" emptyState (Or.inr ⟨[1, 2], rfl⟩)

/-- C7: when the text is not cached and the external embedding call fails,
`embed_text` stores nothing in the cache, appends the failure to the log, and
returns a zero-filled vector of the configured dimension. -/
theorem embed_text_failure_no_cache (hash : String → String)
    (svc : String → Except String Vec) (dim : Nat) (text : String) (st : EmbedState)
    (e : String)
    (hmiss : st.cache.lookup (hash text) = none)
    (hfail : svc text = Except.error e) :
    (embed_text hash svc dim text st).1 = List.replicate dim 0 ∧
    (embed_text hash svc dim text st).1.length = dim ∧
    (embed_text hash svc dim text st).2.cache = st.cache ∧
    (embed_text hash svc dim text st).2.log
      = st.log ++ ["Error generating embedding: " ++ e] := by
  simp [embed_text, hmiss, hfail]

/-- C7 witness: a concrete failing call leaves the cache empty, logs, and
returns the zero vector of dimension 3. -/
theorem embed_text_failure_no_cache_witness :
    (embed_text idHash failSvc 3 "t" emptyState).1 = List.replicate 3 0 ∧
    (embed_text idHash failSvc 3 "t" emptyState).1.length = 3 ∧
    (embed_text idHash failSvc 3 "t" emptyState).2.cache = emptyState.cache ∧
    (embed_text idHash failSvc 3 "t" emptyState).2.log
      = emptyState.log ++ ["Error generating embedding: " ++ "boom"] :=
  embed_text_failure_no_cache idHash failSvc 3 "t" emptyState "boom" rfl rfl

/-- C5: when the external index honours its contract (at most `k` matches,
scores non-increasing) on every successful response, `pinecone_query` returns
at most `top_k` matches in non-increasing score order, and returns the empty
sequence whenever the index call fails. -/
theorem pinecone_query_bounded_sorted (hash : String → String)
    (esvc : String → Except String Vec) (dim : Nat)
    (idx : Vec → Nat → Except String (List VectorMatch))
    (query_text : String) (top_k : Nat) (st : EmbedState)
    (hidx : ∀ v k ms, idx v k = Except.ok ms → ms.length ≤ k ∧ scoresNonInc ms = true) :
    (pinecone_query hash esvc dim idx query_text top_k st).1.length ≤ top_k ∧
    scoresNonInc (pinecone_query hash esvc dim idx query_text top_k st).1 = true ∧
    (∀ e, idx (embed_text hash esvc dim query_text st).1 top_k = Except.error e →
      (pinecone_query hash esvc dim idx query_text top_k st).1 = []) := by
  cases hq : idx (embed_text hash esvc dim query_text st).1 top_k with
  | ok ms =>
    have hms := hidx _ _ _ hq
    refine ⟨?_, ?_, ?_⟩
    · simpa [pinecone_query, hq] using hms.1
    · simpa [pinecone_query, hq] using hms.2
    · exact fun e he => Except.noConfusion he
  | error e0 =>
    refine ⟨?_, ?_, ?_⟩
    · simp [pinecone_query, hq]
    · simp [pinecone_query, hq, scoresNonInc]
    · intro e he; simp [pinecone_query, hq]

/-- C5 witness: a concrete contract-honouring index, on which the query
returns at most `TOP_K` matches in non-increasing order. -/
theorem pinecone_query_bounded_sorted_witness :
    (pinecone_query idHash okSvc 2 sortedIdx "q" TOP_K emptyState).1.length ≤ TOP_K ∧
    scoresNonInc (pinecone_query idHash okSvc 2 sortedIdx "q" TOP_K emptyState).1 = true ∧
    (∀ e, sortedIdx (embed_text idHash okSvc 2 "q" emptyState).1 TOP_K = Except.error e →
      (pinecone_query idHash okSvc 2 sortedIdx "q" TOP_K emptyState).1 = []) :=
  pinecone_query_bounded_sorted idHash okSvc 2 sortedIdx "q" TOP_K emptyState
    (by
      intro v k ms h
      cases h
      refine ⟨List.length_take_le k _, ?_⟩
      match k with
      | 0 => decide
      | 1 => decide
      | n + 2 =>
        rw [List.take_of_length_le (by simp)]
        decide)

/-- Helper: closed form of the accumulating per-id loop. -/
theorem collectFacts_eq (q1 : String → Except String (List GraphRec))
    (node_ids : List String) :
    collectFacts q1 node_ids = (succeedingFacts q1 node_ids, perIdFailLog q1 node_ids) := by
  have gen : ∀ (ids : List String) (acc : List Fact × List String),
      ids.foldl
        (fun acc nid =>
          match q1 nid with
          | Except.ok recs => (acc.1 ++ recs.map (mkFact nid), acc.2)
          | Except.error e =>
              (acc.1, acc.2 ++ ["Error fetching graph context for " ++ nid ++ ": " ++ e]))
        acc
      = (acc.1 ++ succeedingFacts q1 ids, acc.2 ++ perIdFailLog q1 ids) := by
    intro ids
    induction ids with
    | nil => intro acc; simp [succeedingFacts, perIdFailLog]
    | cons nid rest ih =>
      intro acc
      cases hq : q1 nid with
      | ok recs =>
        simp only [List.foldl_cons, hq, ih, succeedingFacts, perIdFailLog,
          List.flatMap_cons]
        simp [List.append_assoc]
      | error e =>
        simp only [List.foldl_cons, hq, ih, succeedingFacts, perIdFailLog,
          List.flatMap_cons]
        simp [List.append_assoc]
  simpa [collectFacts] using gen node_ids ([], [])

/-- Helper: explicit form of `fetch_graph_context`. -/
theorem fetch_graph_context_eq (q1 : String → Except String (List GraphRec))
    (q2 : List String → Except String (List CityConnection)) (node_ids : List String) :
    fetch_graph_context q1 q2 node_ids =
      (if cityIdsOf (succeedingFacts q1 node_ids) = [] then
        { facts := succeedingFacts q1 node_ids, city_connections := [],
          connectivity_queries := 0, log := perIdFailLog q1 node_ids }
      else
        match q2 (cityIdsOf (succeedingFacts q1 node_ids)) with
        | Except.ok cs =>
            { facts := succeedingFacts q1 node_ids, city_connections := cs,
              connectivity_queries := 1, log := perIdFailLog q1 node_ids }
        | Except.error e =>
            { facts := succeedingFacts q1 node_ids, city_connections := [],
              connectivity_queries := 1,
              log := perIdFailLog q1 node_ids
                ++ ["Error fetching city connections: " ++ e] }) := by
  simp only [fetch_graph_context, collectFacts_eq]

/-- Helper: membership in the succeeding-ids fact list. -/
theorem mem_succeedingFacts (q1 : String → Except String (List GraphRec))
    (ids : List String) (f : Fact) (h : f ∈ succeedingFacts q1 ids) :
    f.source ∈ ids ∧ ∃ recs, q1 f.source = Except.ok recs := by
  simp only [succeedingFacts, List.mem_flatMap] at h
  obtain ⟨nid, hnid, hf⟩ := h
  cases hq : q1 nid with
  | ok recs =>
    rw [hq] at hf
    obtain ⟨r, _, hr⟩ := List.mem_map.mp hf
    have hsrc : f.source = nid := by rw [← hr]; rfl
    rw [hsrc]
    exact ⟨hnid, recs, hq⟩
  | error e =>
    rw [hq] at hf
    cases hf

/-- Helper: every per-id failure is recorded in the per-id fail log. -/
theorem mem_perIdFailLog (q1 : String → Except String (List GraphRec))
    (ids : List String) (nid : String) (e : String)
    (hnid : nid ∈ ids) (hq : q1 nid = Except.error e) :
    ("Error fetching graph context for " ++ nid ++ ": " ++ e) ∈ perIdFailLog q1 ids := by
  simp only [perIdFailLog, List.mem_flatMap]
  exact ⟨nid, hnid, by rw [hq]; exact List.mem_singleton.mpr rfl⟩

/-- C2: graph expansion never raises and tolerates partial failure: the facts
are exactly those contributed by the ids whose per-id query succeeds (so every
returned fact names a succeeding source id), every per-id failure is logged,
and a failure of the city-connectivity query yields an empty connection list
instead of failing the whole call. -/
theorem fetch_graph_context_partial_failure (q1 : String → Except String (List GraphRec))
    (q2 : List String → Except String (List CityConnection)) (node_ids : List String) :
    (fetch_graph_context q1 q2 node_ids).facts = succeedingFacts q1 node_ids ∧
    (∀ f ∈ (fetch_graph_context q1 q2 node_ids).facts,
      f.source ∈ node_ids ∧ ∃ recs, q1 f.source = Except.ok recs) ∧
    (∀ nid ∈ node_ids, ∀ e, q1 nid = Except.error e →
      ("Error fetching graph context for " ++ nid ++ ": " ++ e)
        ∈ (fetch_graph_context q1 q2 node_ids).log) ∧
    (∀ e, q2 (cityIdsOf (succeedingFacts q1 node_ids)) = Except.error e →
      (fetch_graph_context q1 q2 node_ids).city_connections = []) := by
  have hfacts : (fetch_graph_context q1 q2 node_ids).facts = succeedingFacts q1 node_ids := by
    rw [fetch_graph_context_eq]
    by_cases hc : cityIdsOf (succeedingFacts q1 node_ids) = []
    · rw [if_pos hc]
    · rw [if_neg hc]
      cases q2 (cityIdsOf (succeedingFacts q1 node_ids)) <;> rfl
  have hlog : ∃ rest, (fetch_graph_context q1 q2 node_ids).log
      = perIdFailLog q1 node_ids ++ rest := by
    rw [fetch_graph_context_eq]
    by_cases hc : cityIdsOf (succeedingFacts q1 node_ids) = []
    · rw [if_pos hc]; exact ⟨[], by simp⟩
    · rw [if_neg hc]
      cases q2 (cityIdsOf (succeedingFacts q1 node_ids)) with
      | ok cs => exact ⟨[], by simp⟩
      | error e => exact ⟨_, rfl⟩
  have hconn : ∀ e, q2 (cityIdsOf (succeedingFacts q1 node_ids)) = Except.error e →
      (fetch_graph_context q1 q2 node_ids).city_connections = [] := by
    intro e he
    rw [fetch_graph_context_eq]
    by_cases hc : cityIdsOf (succeedingFacts q1 node_ids) = []
    · rw [if_pos hc]
    · rw [if_neg hc, he]
  refine ⟨hfacts, ?_, ?_, hconn⟩
  · intro f hf
    rw [hfacts] at hf
    exact mem_succeedingFacts q1 node_ids f hf
  · intro nid hnid e he
    obtain ⟨rest, hrest⟩ := hlog
    rw [hrest]
    exact List.mem_append_left _ (mem_perIdFailLog q1 node_ids nid e hnid he)

/-- C2 witness: on a concrete partially-failing id set, the failure of id "b"
is logged while the expansion still returns normally. -/
theorem fetch_graph_context_partial_failure_witness :
    ("Error fetching graph context for " ++ "b" ++ ": " ++ "down")
      ∈ (fetch_graph_context wq1 wq2 ["a", "b"]).log :=
  (fetch_graph_context_partial_failure wq1 wq2 ["a", "b"]).2.2.1 "b" (by decide) "down" rfl

/-- C8: the derived city-id list contains exactly the source ids of collected
facts whose target carried a "City" label; when it is empty no connectivity
query is issued and the connection list is empty; when it is non-empty exactly
one connectivity query is issued; and under the connectivity query's LIMIT-5
contract at most 5 city connections are returned. -/
theorem fetch_graph_context_city_stage (q1 : String → Except String (List GraphRec))
    (q2 : List String → Except String (List CityConnection)) (node_ids : List String)
    (h5 : ∀ ids cs, q2 ids = Except.ok cs → cs.length ≤ 5) :
    (∀ x, x ∈ cityIdsOf ((fetch_graph_context q1 q2 node_ids).facts) ↔
      ∃ f ∈ (fetch_graph_context q1 q2 node_ids).facts,
        f.source = x ∧ "City" ∈ f.labels) ∧
    (cityIdsOf ((fetch_graph_context q1 q2 node_ids).facts) = [] →
      (fetch_graph_context q1 q2 node_ids).connectivity_queries = 0 ∧
      (fetch_graph_context q1 q2 node_ids).city_connections = []) ∧
    (cityIdsOf ((fetch_graph_context q1 q2 node_ids).facts) ≠ [] →
      (fetch_graph_context q1 q2 node_ids).connectivity_queries = 1) ∧
    (fetch_graph_context q1 q2 node_ids).city_connections.length ≤ 5 := by
  have hfacts := (fetch_graph_context_partial_failure q1 q2 node_ids).1
  refine ⟨?_, ?_, ?_, ?_⟩
  · intro x
    simp only [cityIdsOf, List.mem_map, List.mem_filter, decide_eq_true_eq]
    tauto
  · intro hc
    rw [hfacts] at hc
    rw [fetch_graph_context_eq, if_pos hc]
    exact ⟨rfl, rfl⟩
  · intro hc
    rw [hfacts] at hc
    rw [fetch_graph_context_eq, if_neg hc]
    cases q2 (cityIdsOf (succeedingFacts q1 node_ids)) <;> rfl
  · rw [fetch_graph_context_eq]
    by_cases hc : cityIdsOf (succeedingFacts q1 node_ids) = []
    · rw [if_pos hc]; simp
    · rw [if_neg hc]
      cases hq : q2 (cityIdsOf (succeedingFacts q1 node_ids)) with
      | ok cs => exact h5 _ cs hq
      | error e => simp

/-- C8 witness: a concrete expansion whose single fact targets a City node
issues exactly one connectivity query. -/
theorem fetch_graph_context_city_stage_witness :
    cityIdsOf ((fetch_graph_context wq1c wq2c ["a"]).facts) ≠ [] ∧
    (fetch_graph_context wq1c wq2c ["a"]).connectivity_queries = 1 :=
  ⟨by decide,
   (fetch_graph_context_city_stage wq1c wq2c ["a"]
      (by intro ids cs h; cases h; decide)).2.2.1 (by decide)⟩

/-- C4: when 12 vector matches are supplied, only the first 8 are individually
formatted, so the semantic-match section holds 8 rendered lines; the 10-line
cap applied when joining is a no-op, and the joined section carries at most 10
rendered lines. -/
theorem vec_context_twelve_matches (fmtScore : ℚ → String) (ms : List VectorMatch)
    (h : ms.length = 12) :
    (vec_context fmtScore ms).length = 8 ∧
    (vec_context fmtScore ms).take 10 = vec_context fmtScore ms ∧
    ((vec_context fmtScore ms).take 10).length ≤ 10 ∧
    String.intercalate "\n" ((vec_context fmtScore ms).take 10)
      = String.intercalate "\n" (vec_context fmtScore ms) := by
  have hlen : (vec_context fmtScore ms).length = 8 := by
    simp [vec_context, h]
  have hno : (vec_context fmtScore ms).take 10 = vec_context fmtScore ms :=
    List.take_of_length_le (by omega)
  exact ⟨hlen, hno, by rw [hno, hlen]; omega, by rw [hno]⟩

/-- C4 witness: twelve concrete matches render to exactly 8 lines and the
10-line cap is a no-op. -/
theorem vec_context_twelve_matches_witness :
    twelveMatches.length = 12 ∧
    (vec_context (fun _ => "0.000") twelveMatches).length = 8 ∧
    (vec_context (fun _ => "0.000") twelveMatches).take 10
      = vec_context (fun _ => "0.000") twelveMatches ∧
    ((vec_context (fun _ => "0.000") twelveMatches).take 10).length ≤ 10 ∧
    String.intercalate "\n" ((vec_context (fun _ => "0.000") twelveMatches).take 10)
      = String.intercalate "\n" (vec_context (fun _ => "0.000") twelveMatches) :=
  ⟨by decide, vec_context_twelve_matches (fun _ => "0.000") twelveMatches (by decide)⟩

/-- C9: whenever the chat-completion service raises, `call_chat` returns the
string "Error calling OpenAI: ..." — which starts with "Error calling" — as a
normal return value, and the pipeline returns exactly this string as its
answer. -/
theorem call_chat_failure_becomes_answer (hash : String → String)
    (esvc : String → Except String Vec) (dim : Nat)
    (idx : Vec → Nat → Except String (List VectorMatch))
    (q1 : String → Except String (List GraphRec))
    (q2 : List String → Except String (List CityConnection))
    (chat_svc : List PromptMessage → Except String String)
    (fmtScore : ℚ → String) (query : String) (st : EmbedState) (e : String)
    (hfail : ∀ msgs, chat_svc msgs = Except.error e) :
    (∀ msgs, call_chat chat_svc msgs = "Error calling OpenAI: " ++ e) ∧
    (∀ msgs, pyStartsWith (call_chat chat_svc msgs) "Error calling" = true) ∧
    (ask_pipeline hash esvc dim idx q1 q2 chat_svc fmtScore query st).1
      = "Error calling OpenAI: " ++ e := by
  have hcc : ∀ msgs, call_chat chat_svc msgs = "Error calling OpenAI: " ++ e := by
    intro msgs
    simp [call_chat, hfail msgs]
  refine ⟨hcc, ?_, ?_⟩
  · intro msgs
    rw [hcc msgs]
    simp only [pyStartsWith, decide_eq_true_eq]
    have h1 : "Error calling".data <+: "Error calling OpenAI: ".data := by decide
    have h2 : ("Error calling OpenAI: " ++ e).data
        = "Error calling OpenAI: ".data ++ e.data := String.data_append _ _
    rw [h2]
    exact h1.trans (List.prefix_append _ _)
  · simp [ask_pipeline, hcc]

/-- C9 witness: a concrete pipeline run with a raising completion service
returns the error string as its answer. -/
theorem call_chat_failure_becomes_answer_witness :
    (ask_pipeline idHash okSvc 2 sortedIdx wq1 wq2 failChat (fun _ => "0.000")
        "q" emptyState).1
      = "Error calling OpenAI: " ++ "boom" :=
  (call_chat_failure_becomes_answer idHash okSvc 2 sortedIdx wq1 wq2 failChat
      (fun _ => "0.000") "q" emptyState "boom" (fun _ => rfl)).2.2

end GoViet
